import Mathlib

/-!
Verification of the tabular-analytics web application (app.py,
yandex_gpt_module.py, gigachat_module.py, pdf_generator.py).

The embedding models a pandas DataFrame as a list of named, typed columns
of optional cells.  Library calls whose behaviour is not defined in this
repository (pd.to_datetime / pd.to_numeric on a scalar, Series.std,
werkzeug's secure_filename, reportlab's doc.build, the two remote LLM
APIs, pdfplumber's table extraction) are modelled as abstract data or
function parameters; all branching, guarding and shaping logic is
translated directly from the source.
-/

/-- A scalar cell value.  The field q is the numeric payload used when the
column dtype is int64 or float64; s is the string representation used by
object columns; dtOk and numOk record whether the library calls
pd.to_datetime respectively pd.to_numeric succeed on this scalar (these
are library calls, so their outcome is carried as data). -/
structure Value where
  q : ℚ
  s : String
  dtOk : Bool
  numOk : Bool
deriving DecidableEq, Repr

/-- A cell of a DataFrame column: none models NaN / None. -/
abbrev Cell := Option Value

/-- The pandas dtype of a column, as far as the application inspects it. -/
inductive Dtype where
  | int64
  | float64
  | object
  | otherDtype (s : String)
deriving DecidableEq, Repr

/-- Rendering of a dtype, mirroring str(df[column].dtype). -/
def Dtype.render : Dtype → String
  | .int64 => "int64"
  | .float64 => "float64"
  | .object => "object"
  | .otherDtype s => s

/-- Whether the dtype is one of the two numeric dtypes the source tests
with the membership check dtype in [int64, float64]. -/
def Dtype.isNumeric : Dtype → Bool
  | .int64 => true
  | .float64 => true
  | _ => false

/-- A DataFrame column: a name, a dtype and the cells top to bottom. -/
structure Column where
  name : String
  dtype : Dtype
  cells : List Cell
deriving DecidableEq, Repr

/-- A DataFrame: its columns and the length of its row index. -/
structure DataFrame where
  nrows : Nat
  cols : List Column
deriving DecidableEq, Repr

/-- Well-formedness: every column has exactly one cell per row, as pandas
guarantees for a materialized DataFrame. -/
def DataFrame.WF (df : DataFrame) : Prop :=
  ∀ c ∈ df.cols, c.cells.length = df.nrows

/-- The non-null values of a column, mirroring Series.dropna. -/
def dropnaCells (cells : List Cell) : List Value :=
  cells.filterMap id

/-- Number of non-null cells, mirroring Series.count. -/
def countCells (cells : List Cell) : Nat :=
  (dropnaCells cells).length

/-- Number of null cells, mirroring Series.isnull.sum. -/
def nullCount (cells : List Cell) : Nat :=
  (cells.filter (fun c => c.isNone)).length

/-- The type label detect_data_types computes for one column.  dtype in
[int64, float64] gives numeric; for object dtype the first three non-null
values are sampled and pd.to_datetime respectively pd.to_numeric is tried
on the first of them, falling back to text on failure or on an empty
sample; any other dtype gives text. -/
def detectColumnType (c : Column) : String :=
  if c.dtype.isNumeric then "numeric"
  else if c.dtype = Dtype.object then
    match (dropnaCells c.cells).take 3 with
    | [] => "text"
    | v :: _ =>
      if v.dtOk then "datetime"
      else if v.numOk then "numeric"
      else "text"
  else "text"

/-- Translation of detect_data_types: the dict from column name to the
detected label, built in column order. -/
def detect_data_types (df : DataFrame) : List (String × String) :=
  df.cols.map (fun c => (c.name, detectColumnType c))

/-- Claim C2 test helper: the set of labels the function may emit. -/
def validLabels : List String := ["numeric", "datetime", "text"]

/-- Rounding to two decimal places, mirroring round(x, 2). -/
def roundTo2 (x : ℚ) : ℚ := ((round (x * 100) : ℤ) : ℚ) / 100

/-- Sum of a list of rationals, mirroring Series.sum over non-null values. -/
def sumVals (vs : List ℚ) : ℚ := vs.sum

/-- Arithmetic mean, mirroring Series.mean over non-null values. -/
def meanVals (vs : List ℚ) : ℚ := vs.sum / (vs.length : ℚ)

/-- Least element, mirroring Series.min over non-null values. -/
def minVals : List ℚ → ℚ
  | [] => 0
  | v :: rest => rest.foldl min v

/-- Greatest element, mirroring Series.max over non-null values. -/
def maxVals : List ℚ → ℚ
  | [] => 0
  | v :: rest => rest.foldl max v

/-- Insertion into a sorted list, used to model the sorting done inside
Series.median. -/
def insertSorted (x : ℚ) : List ℚ → List ℚ
  | [] => [x]
  | y :: ys => if x ≤ y then x :: y :: ys else y :: insertSorted x ys

/-- Insertion sort on rationals. -/
def sortQ (vs : List ℚ) : List ℚ := vs.foldr insertSorted []

/-- Median with midpoint interpolation for even length, mirroring
Series.median over non-null values. -/
def medianVals (vs : List ℚ) : ℚ :=
  let s := sortQ vs
  let n := s.length
  if n = 0 then 0
  else if n % 2 = 1 then s.getD (n / 2) 0
  else (s.getD (n / 2 - 1) 0 + s.getD (n / 2) 0) / 2

/-- Number of distinct non-null values, mirroring Series.nunique. -/
def nunique (cells : List Cell) : Nat := (dropnaCells cells).dedup.length

/-- Insertion of a keyed count into a list sorted by descending count,
used to model value_counts ordering. -/
def insertByCount (p : Value × Nat) : List (Value × Nat) → List (Value × Nat)
  | [] => [p]
  | q :: qs => if q.2 ≤ p.2 then p :: q :: qs else q :: insertByCount p qs

/-- Occurrence counts of the distinct non-null values in descending count
order, mirroring Series.value_counts. -/
def value_counts (cells : List Cell) : List (Value × Nat) :=
  let vs := dropnaCells cells
  (vs.dedup.map (fun k => (k, (vs.filter (fun v => v = k)).length))).foldr
    insertByCount []

/-- The five most frequent values rendered as strings with their counts,
mirroring the top_values dict of the object branch. -/
def topValues (cells : List Cell) : List (String × Nat) :=
  ((value_counts cells).take 5).map (fun p => (p.1.s, p.2))

/-- The six descriptive statistics the numeric branch stores. -/
structure NumStats where
  sum : ℚ
  mean : ℚ
  min : ℚ
  max : ℚ
  median : ℚ
  std : ℚ
deriving DecidableEq, Repr

/-- Descriptive statistics of a numeric column.  Every field is guarded by
the same condition not df[column].isnull().all(), which is equivalent to
the non-null count being zero, and falls back to 0.0 in that case.  The
standard deviation is a library computation (Series.std), so it is taken
as the function parameter stdFn, applied to the non-null values. -/
def numericStats (stdFn : List ℚ → ℚ) (cells : List Cell) : NumStats :=
  let vs := (dropnaCells cells).map Value.q
  if countCells cells = 0 then ⟨0, 0, 0, 0, 0, 0⟩
  else
    { sum := sumVals vs, mean := meanVals vs, min := minVals vs,
      max := maxVals vs, median := medianVals vs, std := stdFn vs }

/-- The per-column record stored in columns_info.  num_stats is present
exactly for int64/float64 columns; top_values and unique_values_count
exactly for object columns. -/
structure ColumnInfo where
  dtype : String
  non_null_count : Nat
  null_count : Nat
  unique_count : Nat
  completeness : ℚ
  num_stats : Option NumStats
  top_values : Option (List (String × Nat))
  unique_values_count : Option Nat
deriving DecidableEq, Repr

/-- Translation of the per-column body of the loop in get_basic_analytics. -/
def columnInfo (stdFn : List ℚ → ℚ) (nrows : Nat) (c : Column) : ColumnInfo :=
  { dtype := c.dtype.render
    non_null_count := countCells c.cells
    null_count := nullCount c.cells
    unique_count := nunique c.cells
    completeness := roundTo2 (((countCells c.cells : ℚ) / (nrows : ℚ)) * 100)
    num_stats :=
      if c.dtype.isNumeric then some (numericStats stdFn c.cells) else none
    top_values := if c.dtype = .object then some (topValues c.cells) else none
    unique_values_count :=
      if c.dtype = .object then some (nunique c.cells) else none }

/-- The summary_stats dict. -/
structure SummaryStats where
  numeric_columns : Nat
  text_columns : Nat
  total_missing_values : Nat
  completeness_percentage : ℚ
deriving DecidableEq, Repr

/-- The analytics dict returned by get_basic_analytics. -/
structure Analytics where
  total_rows : Nat
  total_columns : Nat
  summary_stats : SummaryStats
  columns_info : List (String × ColumnInfo)
deriving DecidableEq, Repr

/-- Total number of null cells, mirroring df.isnull.sum.sum. -/
def totalMissing (df : DataFrame) : Nat :=
  (df.cols.map (fun c => nullCount c.cells)).sum

/-- Translation of get_basic_analytics. -/
def get_basic_analytics (stdFn : List ℚ → ℚ) (df : DataFrame) : Analytics :=
  { total_rows := df.nrows
    total_columns := df.cols.length
    summary_stats :=
      { numeric_columns := (df.cols.filter (fun c => c.dtype.isNumeric)).length
        text_columns := (df.cols.filter (fun c => c.dtype = .object)).length
        total_missing_values := totalMissing df
        completeness_percentage :=
          roundTo2 ((1 - (totalMissing df : ℚ) /
            ((df.nrows : ℚ) * (df.cols.length : ℚ))) * 100) }
    columns_info := df.cols.map (fun c => (c.name, columnInfo stdFn df.nrows c)) }

/-- Filenames are modelled as their character lists. -/
abbrev FileName := List Char

/-- Translation of ALLOWED_EXTENSIONS. -/
def ALLOWED_EXTENSIONS : List FileName :=
  [String.toList "xlsx", String.toList "xls", String.toList "csv",
   String.toList "pdf"]

/-- The extension after the last dot, mirroring rsplit applied from the
right with one split and taking the second part. -/
def lastExt (f : FileName) : FileName :=
  (f.reverse.takeWhile (fun c => c ≠ '.')).reverse

/-- Translation of allowed_file: the name must contain a dot and its
lowercased last extension must be one of the allowed four. -/
def allowed_file (f : FileName) : Bool :=
  f.contains '.' &&
    decide ((lastExt f).map Char.toLower ∈ ALLOWED_EXTENSIONS)

/-- Suffix test on character lists, mirroring str.endswith. -/
def endsWithSuffix (suffix f : FileName) : Bool :=
  decide (f.reverse.take suffix.length = suffix.reverse)

/-- The three readers the upload handler can dispatch to. -/
inductive Reader where
  | pdfReader
  | csvReader
  | excelReader
deriving DecidableEq, Repr

/-- The suffix the PDF branch of upload_file tests with endswith. -/
def PDF_SUFFIX : FileName := String.toList ".pdf"

/-- The suffix the CSV branch of upload_file tests with endswith. -/
def CSV_SUFFIX : FileName := String.toList ".csv"

/-- The reader chosen from the stored filename, mirroring the endswith
branching of upload_file: pdf first, then csv, Excel otherwise. -/
def chooseReader (stored : FileName) : Reader :=
  if endsWithSuffix PDF_SUFFIX stored then .pdfReader
  else if endsWithSuffix CSV_SUFFIX stored then .csvReader
  else .excelReader

/-- Translation of the routing part of upload_file: an empty name or a
name failing allowed_file is answered with an error response (none)
before any reader runs; otherwise the upload is stored under the name
timestamp, underscore, sanitized original name, and the reader is chosen
from that stored name.  The werkzeug sanitizer secure_filename is a
library call, modelled as the parameter sfn. -/
def upload_file (sfn : FileName → FileName) (timestamp f : FileName) :
    Option Reader :=
  if f = [] then none
  else if ¬ allowed_file f then none
  else some (chooseReader (timestamp ++ '_' :: sfn f))

/-- A row of the table_data payload: keys with their values, a value
being either None (none) or the scalar carried as its string rendering. -/
abbrev TableRow := List (String × Option String)

/-- Outcome of the remote completion call for a given prompt: a response
with extractable text, a response with no alternatives, or a raised
exception with its message.  The network client is a library object, so
the call is a parameter of this type. -/
inductive ApiOutcome where
  | okText (text : String)
  | emptyResponse
  | exn (msg : String)
deriving DecidableEq, Repr

/-- The dict returned by the two analyze_table_data methods; a missing
key is none. -/
structure AnalysisResult where
  success : Bool
  analysis : Option String
  model : Option String
  filename : Option String
  error : Option String
deriving DecidableEq, Repr

/-- Dict lookup with default empty string, mirroring row.get(header, '')
followed by str on a present scalar; a stored None renders as None does
under str. -/
def rowGet (row : TableRow) (key : String) : String :=
  match row.lookup key with
  | some (some v) => v
  | some none => "None"
  | none => ""

/-- Width-two right-aligned rendering of a row number, mirroring the 2d
format spec for the numbers 1 to 15 used here. -/
def fmt2d (i : Nat) : String :=
  if i < 10 then " " ++ toString i else toString i

/-- Truncation of long cell renderings, applied by the Yandex preparation
to string values longer than 50 characters. -/
def truncate50 (v : String) : String :=
  if v.length > 50 then (v.take 47) ++ "..." else v

/-- Translation of YandexGPTAnalyzer._prepare_data_for_analysis: header
line, dash separator of the same length, then up to 15 numbered rows with
pipe-separated values looked up per header. -/
def prepare_data_for_analysis (table_data : List TableRow) : String :=
  match table_data with
  | [] => "Данные отсутствуют"
  | first :: _ =>
    let headers := first.map Prod.fst
    let header_line := String.intercalate " | " headers
    let separator := String.mk (List.replicate header_line.length '-')
    let data_lines := (table_data.take 15).enum.map (fun p =>
      let row_values := headers.map (fun h => truncate50 (rowGet p.2 h))
      fmt2d (p.1 + 1) ++ ". " ++ String.intercalate " | " row_values)
    "Заголовки: " ++ header_line ++ "\n" ++
      "Разделитель: " ++ separator ++ "\n" ++
      "Данные:\n" ++ String.intercalate "\n" data_lines

/-- The user prompt the Yandex wrapper sends. -/
def yandexUserPrompt (table_data : List TableRow) (filename : String) :
    String :=
  "Вот первые 15 строк таблицы из файла \"" ++ filename ++ "\":\n\n" ++
    prepare_data_for_analysis table_data ++
    "\n\nПожалуйста, проанализируй эти данные и дай развернутый аналитический отчет."

/-- Translation of YandexGPTAnalyzer.analyze_table_data: on a response
with text, a success dict with analysis, model yandexgpt and filename; on
an empty response a failure dict with an error message; any exception is
caught and becomes a failure dict with the stringified error. -/
def yandexAnalyze (call : String → ApiOutcome) (table_data : List TableRow)
    (filename : String) : AnalysisResult :=
  match call (yandexUserPrompt table_data filename) with
  | .okText t =>
      { success := true, analysis := some t, model := some "yandexgpt",
        filename := some filename, error := none }
  | .emptyResponse =>
      { success := false, analysis := none, model := none, filename := none,
        error := some "Получен пустой ответ от нейросети" }
  | .exn m =>
      { success := false, analysis := none, model := none, filename := none,
        error := some ("Ошибка анализа: " ++ m) }

/-- One row line of the GigaChat prompt: col=value pairs in row order,
with None and the empty string both rendered as the word for empty. -/
def gigachatRowLine (i : Nat) (row : TableRow) : String :=
  "Строка " ++ toString i ++ ": " ++
    String.intercalate ", " (row.map (fun p =>
      let v := match p.2 with
        | none => "пусто"
        | some "" => "пусто"
        | some v => v
      p.1 ++ "=" ++ v)) ++ "\n"

/-- The full prompt the GigaChat wrapper sends: system text, column list
from the first row, then every row (this wrapper does not truncate to 15
rows). -/
def gigachatPrompt (table_data : List TableRow) (filename : String) :
    String :=
  let system_prompt :=
    "Ты - аналитическая система с большим опытом. " ++
    "Твоя задача - анализировать табличные данные, делать выводы и находить аномалии или интересные тенденции. " ++
    "Отвечай на русском языке. Будь конкретным и полезным в своих выводах."
  let base := "Вот первые 15 строк таблицы из файла " ++ filename ++ ":\n\n"
  let data_text :=
    match table_data with
    | [] => base ++ "Данные отсутствуют"
    | first :: _ =>
      base ++ "Столбцы: " ++
        String.intercalate ", " (first.map Prod.fst) ++ "\n\n" ++
        String.join (table_data.enum.map (fun p => gigachatRowLine (p.1 + 1) p.2))
  system_prompt ++ "\n\n" ++ data_text

/-- Translation of GigaChatAnalyzer.analyze_table_data, with the same
shape discipline as the Yandex wrapper and its own message texts. -/
def gigachatAnalyze (call : String → ApiOutcome) (table_data : List TableRow)
    (filename : String) : AnalysisResult :=
  match call (gigachatPrompt table_data filename) with
  | .okText t =>
      { success := true, analysis := some t, model := some "gigachat",
        filename := some filename, error := none }
  | .emptyResponse =>
      { success := false, analysis := none, model := none, filename := none,
        error := some "GigaChat вернул пустой ответ" }
  | .exn m =>
      { success := false, analysis := none, model := none, filename := none,
        error := some ("Ошибка анализа данных через GigaChat: " ++ m) }

/-- The common result-shape contract of the two wrappers: a success dict
carries analysis, model and filename, a failure dict carries an error. -/
def resultShapeOK (r : AnalysisResult) : Prop :=
  (r.success = true →
    r.analysis.isSome = true ∧ r.model.isSome = true ∧
      r.filename.isSome = true) ∧
  (r.success = false → r.error.isSome = true)

/-- A raw table cell as pdfplumber returns it: text or None. -/
abbrev RawCell := Option String

/-- A table from extract_tables: rows of raw cells. -/
abbrev RawTable := List (List RawCell)

/-- A page as far as the extractor consults it: its extracted tables. -/
structure PdfPage where
  tables : List RawTable
deriving DecidableEq, Repr

/-- A PDF document: its pages. -/
structure PdfDocument where
  pages : List PdfPage
deriving DecidableEq, Repr

/-- The DataFrame built from a PDF table: the header labels used as
column names and the data rows. -/
structure PdfFrame where
  headers : List RawCell
  rows : List (List RawCell)
deriving DecidableEq, Repr

/-- Whether a data row holds no value at all. -/
def rowAllNull (r : List RawCell) : Bool := r.all (fun c => c.isNone)

/-- Removal of fully empty rows, mirroring dropna with how equal all on
the row axis. -/
def dropEmptyRows (rows : List (List RawCell)) : List (List RawCell) :=
  rows.filter (fun r => ! rowAllNull r)

/-- Cell of a row at a column position, None when the row is short. -/
def cellAt (r : List RawCell) (j : Nat) : RawCell := r.getD j none

/-- Whether column j holds no value in any row, the condition of dropna
with how equal all on the column axis. -/
def colAllNull (rows : List (List RawCell)) (j : Nat) : Bool :=
  rows.all (fun r => (cellAt r j).isNone)

/-- Positions of the columns kept after dropping fully empty ones. -/
def keptCols (ncols : Nat) (rows : List (List RawCell)) : List Nat :=
  (List.range ncols).filter (fun j => ! colAllNull rows j)

/-- Restriction of a row to the kept column positions. -/
def selectCols (idx : List Nat) (r : List RawCell) : List RawCell :=
  idx.map (fun j => cellAt r j)

/-- Translation of extract_table_from_pdf.  The pdfplumber document is
the parameter doc.  The final per-column dtype coercion performed with
pd.to_numeric and pd.to_datetime under errors equal coerce acts
elementwise on cells and is a library call, modelled by the parameter
conv applied to every data cell; the where with notnull step replaces
nulls by None and is the identity here.  The four guard clauses raise
ValueError, modelled as the error branch carrying the message. -/
def extract_table_from_pdf (conv : RawCell → RawCell) (doc : PdfDocument) :
    Except String PdfFrame :=
  match doc.pages with
  | [] => .error "PDF файл не содержит страниц"
  | first_page :: _ =>
    match first_page.tables with
    | [] => .error "На первой странице PDF не найдено таблиц"
    | table :: _ =>
      match table with
      | [] => .error "Первая таблица в PDF пуста"
      | [_] =>
        .error "Таблица должна содержать как минимум заголовки и одну строку данных"
      | headers :: data_rows =>
        let rows1 := dropEmptyRows data_rows
        let idx := keptCols headers.length rows1
        .ok { headers := selectCols idx headers,
              rows := rows1.map (fun r => (selectCols idx r).map conv) }

/-- Label-based column access, none when the label is absent (pandas
raises KeyError there, which the chart code catches). -/
def getColumn (df : DataFrame) (name : String) : Option Column :=
  df.cols.find? (fun c => c.name = name)

/-- The columns of the data_types dict carrying a given label, mirroring
the three comprehensions at the top of create_charts. -/
def columnsOfType (data_types : List (String × String)) (t : String) :
    List String :=
  (data_types.filter (fun p => p.2 = t)).map Prod.fst

/-- A rendered chart: its kind, title and point coordinates. -/
structure Chart where
  ctype : String
  title : String
  xvals : List String
  yvals : List ℚ
deriving DecidableEq, Repr

/-- Insertion into a list of keyed counts sorted by ascending string
rendering of the key, since groupby sorts group keys. -/
def insertByKeyStr (p : Value × Nat) :
    List (Value × Nat) → List (Value × Nat)
  | [] => [p]
  | q :: qs =>
    if p.1.s ≤ q.1.s then p :: q :: qs else q :: insertByKeyStr p qs

/-- Group sizes over the non-null values of a column with keys in
ascending rendering order, mirroring groupby on the column followed by
size. -/
def groupSizes (cells : List Cell) : List (Value × Nat) :=
  let vs := dropnaCells cells
  (vs.dedup.map (fun k => (k, (vs.filter (fun v => v = k)).length))).foldr
    insertByKeyStr []

/-- Insertion into a list of keyed sums sorted by ascending numeric key,
mirroring sort_index on a numeric group index. -/
def insertByKeyQ (p : Value × ℚ) : List (Value × ℚ) → List (Value × ℚ)
  | [] => [p]
  | q :: qs => if p.1.q ≤ q.1.q then p :: q :: qs else q :: insertByKeyQ p qs

/-- Per-key sums of a value column grouped by a key column, null keys
dropped and null values skipped in the sums, keys ascending; mirroring
groupby на year of sellingprice followed by sum and sort_index. -/
def groupSumBy (keys vals : List Cell) : List (Value × ℚ) :=
  let pairs := (keys.zip vals).filterMap (fun p =>
    match p.1 with
    | some k => some (k, p.2)
    | none => none)
  let ks := (pairs.map Prod.fst).dedup
  (ks.map (fun k =>
    (k, (((pairs.filter (fun p => p.1 = k)).filterMap Prod.snd).map
          Value.q).sum))).foldr insertByKeyQ []

/-- The bar-chart branch of create_charts: present only when make is a
text column and a numeric column exists, the make column resolves and the
top-ten group sizes are non-empty. -/
def barChartOf (df : DataFrame) (data_types : List (String × String)) :
    List Chart :=
  if "make" ∈ columnsOfType data_types "text" ∧
      0 < (columnsOfType data_types "numeric").length then
    match getColumn df "make" with
    | none => []
    | some cmake =>
      let grouped := (groupSizes cmake.cells).take 10
      if 0 < grouped.length then
        [{ ctype := "bar",
           title := "Топ 10 марок автомобилей по количеству продаж",
           xvals := grouped.map (fun p => p.1.s),
           yvals := grouped.map (fun p => (p.2 : ℚ)) }]
      else []
  else []

/-- The line-chart branch of create_charts: present only when year and
sellingprice are numeric columns, both resolve and the per-year sums have
more than one point. -/
def lineChartOf (df : DataFrame) (data_types : List (String × String)) :
    List Chart :=
  if "year" ∈ columnsOfType data_types "numeric" ∧
      "sellingprice" ∈ columnsOfType data_types "numeric" then
    match getColumn df "year", getColumn df "sellingprice" with
    | some cy, some cs =>
      let grouped := groupSumBy cy.cells cs.cells
      if 1 < grouped.length then
        [{ ctype := "line",
           title := "Общая сумма продаж по годам",
           xvals := grouped.map (fun p => p.1.s),
           yvals := grouped.map Prod.snd }]
      else []
    | _, _ => []
  else []

/-- Translation of create_charts: the bar branch runs first, then the
line branch, each appending at most one chart. -/
def create_charts (df : DataFrame) (data_types : List (String × String)) :
    List Chart :=
  barChartOf df data_types ++ lineChartOf df data_types

/-- A flowable of the report story, at the granularity the generator
emits them: paragraphs with their style, spacers, horizontal rules and
the data table. -/
inductive RElement where
  | paragraph (text : String) (style : String)
  | spacer (w h : Nat)
  | hrLine
  | dataTable (rows : List (List String))
deriving DecidableEq, Repr

/-- Whether a line opens one of the numbered list items the markdown
converter recognizes, the prefixes 1. to 5. followed by a space. -/
def isNumberedLine (line : String) : Bool :=
  line.startsWith "1. " || line.startsWith "2. " || line.startsWith "3. " ||
    line.startsWith "4. " || line.startsWith "5. "

/-- Flush of the accumulated paragraph lines.  The header, rule and list
branches of the converter emit the joined text as is; the blank-line
branch and the final flush first pass it through the inline markup
substitution, which performs the two regular-expression replacements of
bold and italic markers and is modelled by the parameter inlineFmt. -/
def flushPara (inlineFmt : String → String) (withFmt : Bool)
    (cur : List String) : List RElement :=
  if cur = [] then []
  else
    let t := String.intercalate " " cur
    [.paragraph (if withFmt then inlineFmt t else t) "AIAnalysis",
     .spacer 1 4]

/-- One step of the line loop of _convert_markdown_to_reportlab. -/
def mdStep (inlineFmt : String → String) (acc : List RElement × List String)
    (rawLine : String) : List RElement × List String :=
  let elements := acc.1
  let cur := acc.2
  let line := rawLine.trim
  if line.startsWith "###" then
    (elements ++ flushPara inlineFmt false cur ++
      [.paragraph ("<b>" ++ (line.drop 3).trim ++ "</b>") "AIAnalysis",
       .spacer 1 4], [])
  else if line.startsWith "##" then
    (elements ++ flushPara inlineFmt false cur ++
      [.paragraph ("<b><font size=\x2712\x27>" ++ (line.drop 2).trim ++
          "</font></b>") "AIAnalysis",
       .spacer 1 6], [])
  else if line.startsWith "#" then
    (elements ++ flushPara inlineFmt false cur ++
      [.paragraph ("<b><font size=\x2714\x27>" ++ (line.drop 1).trim ++
          "</font></b>") "AIAnalysis",
       .spacer 1 8], [])
  else if line.startsWith "---" || line.startsWith "***" then
    (elements ++ flushPara inlineFmt false cur ++ [.hrLine, .spacer 1 6], [])
  else if line.startsWith "- " || line.startsWith "* " then
    (elements ++ flushPara inlineFmt false cur ++
      [.paragraph ("• " ++ inlineFmt ((line.drop 2).trim)) "AIAnalysis",
       .spacer 1 2], [])
  else if isNumberedLine line then
    (elements ++ flushPara inlineFmt false cur ++
      [.paragraph ((line.take 2) ++ " " ++ inlineFmt ((line.drop 3).trim))
          "AIAnalysis",
       .spacer 1 2], [])
  else if line = "" then
    (elements ++ flushPara inlineFmt true cur, [])
  else (elements, cur ++ [line])

/-- Translation of PDFReportGenerator._convert_markdown_to_reportlab. -/
def convert_markdown_to_reportlab (inlineFmt : String → String)
    (text : String) : List RElement :=
  if text = "" ∨ text.trim = "" then []
  else
    let r := (text.splitOn "\n").foldl (mdStep inlineFmt) ([], [])
    r.1 ++ flushPara inlineFmt true r.2

/-- Value rendering of the data-table cells: None, empty and blank
renderings become a dash, long renderings are cut to 22 characters plus
an ellipsis; scalar values are carried already rendered. -/
def formatCellForPdf (v : Option String) : String :=
  match v with
  | none => "—"
  | some s =>
    if s = "" ∨ s.trim = "" then "—"
    else if s.length > 25 then s.take 22 ++ "..." else s

/-- Dict access row.get(col, ...) with the empty-string default of
_add_data_table. -/
def rowGetOpt (row : TableRow) (key : String) : Option String :=
  match row.lookup key with
  | some v => v
  | none => some ""

/-- Translation of PDFReportGenerator._add_data_table: section title,
then either a missing-data paragraph or the header row plus the first 30
formatted data rows, with a trailing note when rows were cut. -/
def add_data_table (table_data : List TableRow) (columns : List String) :
    List RElement :=
  [.paragraph "📋 Данные" "SectionTitle"] ++
  (if table_data = [] ∨ columns = [] then
    [.paragraph "Данные отсутствуют" "NormalText"]
  else
    let table_rows := columns ::
      (table_data.take 30).map (fun row =>
        columns.map (fun c => formatCellForPdf (rowGetOpt row c)))
    [.dataTable table_rows, .spacer 1 12] ++
    (if 30 < table_data.length then
      [.paragraph ("<i>Показаны первые 30 строк из " ++
          toString table_data.length ++ "</i>") "NormalText"]
    else []))

/-- The summary text block of the analytics section. -/
def statsText (a : Analytics) : String :=
  "<b>Общая статистика:</b><br/>" ++
  "• Всего строк: " ++ toString a.total_rows ++ "<br/>" ++
  "• Всего столбцов: " ++ toString a.total_columns ++ "<br/>" ++
  "• Числовые столбцы: " ++ toString a.summary_stats.numeric_columns ++
    "<br/>" ++
  "• Текстовые столбцы: " ++ toString a.summary_stats.text_columns ++
    "<br/>" ++
  "• Заполненность: " ++ toString a.summary_stats.completeness_percentage ++
    "%"

/-- The per-column line of the analytics section. -/
def colText (name : String) (ci : ColumnInfo) : String :=
  "<b>" ++ name ++ ":</b> " ++ ci.dtype ++ " | Уникальных: " ++
    toString ci.unique_count ++ " | Заполненность: " ++
    toString ci.completeness ++ "%"

/-- Translation of PDFReportGenerator._add_analytics_section: section
title, the summary block, and when columns_info is non-empty its header
and the first ten column lines. -/
def add_analytics_section (analytics : Analytics) : List RElement :=
  [.paragraph "📈 Аналитика" "SectionTitle"] ++
  [.paragraph (statsText analytics) "NormalText", .spacer 1 12] ++
  (if analytics.columns_info = [] then []
   else
    [.paragraph "<b>Информация по столбцам:</b>" "NormalText"] ++
    (analytics.columns_info.take 10).map (fun p =>
      .paragraph (colText p.1 p.2) "NormalText"))

/-- One provider block of the AI section: subsection title, converted
markdown, trailing spacer. -/
def aiBlock (inlineFmt : String → String) (title txt : String) :
    List RElement :=
  [.paragraph title "SubsectionTitle", .spacer 1 4] ++
    convert_markdown_to_reportlab inlineFmt txt ++ [.spacer 1 8]

/-- Translation of PDFReportGenerator._add_ai_analysis_section: yandex
first when present with non-blank text, then gigachat, else the
no-analyses note. -/
def add_ai_analysis_section (inlineFmt : String → String)
    (ai_analyses : List (String × String)) : List RElement :=
  [.paragraph "🤖 Анализ от нейросетей" "SectionTitle"] ++
  (if ai_analyses = [] then
    [.paragraph "AI анализы не были выполнены" "NormalText"]
  else
    (match ai_analyses.lookup "yandex" with
     | some t => if t.trim = "" then [] else aiBlock inlineFmt "🔵 Яндекс.GPT" t
     | none => []) ++
    (match ai_analyses.lookup "gigachat" with
     | some t => if t.trim = "" then [] else aiBlock inlineFmt "🟢 GigaChat" t
     | none => []))

/-- Digit grouping with commas every three digits from the right, applied
to the reversed digit list; mirrors the comma format spec. -/
def groupDigitsR : List Char → List Char
  | a :: b :: c :: d :: rest => a :: b :: c :: ',' :: groupDigitsR (d :: rest)
  | l => l

/-- Thousands-separated rendering of a row count. -/
def fmtThousands (n : Nat) : String :=
  String.mk (groupDigitsR (toString n).toList.reverse).reverse

/-- The report data dict as generate_report consults it; a missing key is
none, the counts defaulting to 0 as in the source. -/
structure ReportData where
  filename : Option String
  total_rows : Nat
  total_columns : Nat
  table_data : List TableRow
  columns : List String
  analytics : Option Analytics
  ai_analyses : List (String × String)

/-- The file-information block at the head of the report; the creation
date comes from the clock, a side effect carried as dateStr.  The
completeness line appears only for a truthy, hence nonzero, stored
percentage. -/
def fileInfo (dateStr : String) (data : ReportData) : String :=
  "<b>Файл:</b> " ++ (match data.filename with
    | some f => f
    | none => "Не указан") ++ "<br/>" ++
  "<b>Дата создания:</b> " ++ dateStr ++ "<br/>" ++
  "<b>Всего строк:</b> " ++ fmtThousands data.total_rows ++ "<br/>" ++
  "<b>Всего столбцов:</b> " ++ toString data.total_columns ++
  (match data.analytics with
   | some a =>
     if a.summary_stats.completeness_percentage = 0 then ""
     else "<br/><b>Заполненность данных:</b> " ++
       toString a.summary_stats.completeness_percentage ++ "%"
   | none => "")

/-- The story generate_report builds inside its try block: title, file
info, rule, then the three optional sections, each guarded by the
truthiness of its datum. -/
def buildStory (inlineFmt : String → String) (dateStr : String)
    (data : ReportData) : List RElement :=
  [.paragraph "📊 Аналитический отчет" "ReportTitle",
   .paragraph (fileInfo dateStr data) "NormalText",
   .spacer 1 15, .hrLine, .spacer 1 15] ++
  (if data.table_data = [] then []
   else add_data_table data.table_data data.columns) ++
  (match data.analytics with
   | some a => add_analytics_section a
   | none => []) ++
  (if data.ai_analyses = [] then []
   else add_ai_analysis_section inlineFmt data.ai_analyses)

/-- Translation of PDFReportGenerator.generate_report: the story is
assembled and handed to the reportlab document build, a library call
modelled by docBuild; the surrounding try/except maps a successful build
to True and any error to False. -/
def generate_report (inlineFmt : String → String)
    (docBuild : List RElement → Except String Unit) (dateStr : String)
    (data : ReportData) : Bool :=
  match docBuild (buildStory inlineFmt dateStr data) with
  | .ok _ => true
  | .error _ => false

/-- Translation of create_pdf_report: constructs a generator and
delegates to generate_report. -/
def create_pdf_report (inlineFmt : String → String)
    (docBuild : List RElement → Except String Unit) (dateStr : String)
    (data : ReportData) : Bool :=
  generate_report inlineFmt docBuild dateStr data

/-- C2: detect_data_types assigns every column exactly one label, the
label is always one of numeric, datetime, text, and the function is total
(it is a Lean function), the text fallback being built into the per-column
branching. -/
theorem detect_data_types_total_and_labelled (df : DataFrame) :
    (detect_data_types df).map Prod.fst = df.cols.map Column.name ∧
    (∀ p ∈ detect_data_types df, p.2 ∈ validLabels) ∧
    (∀ c ∈ df.cols, c.dtype = Dtype.object →
      ∀ v rest, (dropnaCells c.cells).take 3 = v :: rest →
        v.dtOk = false → v.numOk = false → detectColumnType c = "text") := by
  refine ⟨?_, ?_, ?_⟩
  · simp [detect_data_types]
  · intro p hp
    simp only [detect_data_types, List.mem_map] at hp
    obtain ⟨c, _, rfl⟩ := hp
    simp only [detectColumnType, validLabels]
    split
    · simp
    · split
      · rcases h : (dropnaCells c.cells).take 3 with _ | ⟨v, rest⟩
        · simp
        · by_cases h1 : v.dtOk <;> by_cases h2 : v.numOk <;> simp [h1, h2]
      · simp
  · intro c _ hobj v rest hsample h1 h2
    have hnn : Dtype.object.isNumeric = false := rfl
    simp [detectColumnType, hnn, hobj, hsample, h1, h2]

/-- C2 witness: a concrete object column with a value failing both
probes is labelled text by the theorem, and the label is among the three
valid ones. -/
theorem detect_data_types_total_and_labelled_witness :
    detectColumnType
      { name := "a", dtype := .object,
        cells := [none, some ⟨0, "oops", false, false⟩] } = "text" :=
  (detect_data_types_total_and_labelled
      { nrows := 2,
        cols := [{ name := "a", dtype := .object,
                   cells := [none, some ⟨0, "oops", false, false⟩] }] }).2.2
    { name := "a", dtype := .object,
      cells := [none, some ⟨0, "oops", false, false⟩] }
    (List.mem_singleton.mpr rfl) rfl ⟨0, "oops", false, false⟩ [] (by decide)
    rfl rfl

/-- C5: the label of a column depends only on its dtype and the first
three non-null values; two columns agreeing on those get equal labels no
matter what the later values are. -/
theorem detectColumnType_depends_on_sample (c₁ c₂ : Column)
    (hdt : c₁.dtype = c₂.dtype)
    (hs : (dropnaCells c₁.cells).take 3 = (dropnaCells c₂.cells).take 3) :
    detectColumnType c₁ = detectColumnType c₂ := by
  simp only [detectColumnType, hdt, hs]

/-- C5 witness: two object columns share the first three non-null values
but differ afterwards, and receive the same label. -/
theorem detectColumnType_depends_on_sample_witness :
    detectColumnType
        { name := "a", dtype := .object,
          cells := [some ⟨1, "1", false, true⟩, some ⟨2, "2", false, true⟩,
                    some ⟨3, "3", false, true⟩,
                    some ⟨0, "xyz", false, false⟩] }
      = detectColumnType
        { name := "b", dtype := .object,
          cells := [none, some ⟨1, "1", false, true⟩,
                    some ⟨2, "2", false, true⟩, some ⟨3, "3", false, true⟩,
                    some ⟨9, "9", true, true⟩] } :=
  detectColumnType_depends_on_sample _ _ (by decide) (by decide)

/-- The null-cell count never exceeds the column length. -/
theorem nullCount_le_length (cells : List Cell) :
    nullCount cells ≤ cells.length :=
  List.length_filter_le _ _

/-- The non-null-cell count never exceeds the column length. -/
theorem countCells_le_length (cells : List Cell) :
    countCells cells ≤ cells.length :=
  List.length_filterMap_le _ _

/-- In a well-formed frame the total missing count is bounded by the cell
count rows times columns. -/
theorem totalMissing_le (df : DataFrame) (hwf : df.WF) :
    totalMissing df ≤ df.cols.length * df.nrows := by
  unfold totalMissing
  calc (df.cols.map (fun c => nullCount c.cells)).sum
      ≤ (df.cols.map (fun _ => df.nrows)).sum := by
        refine List.sum_le_sum ?_
        intro c hc
        have h1 := nullCount_le_length c.cells
        have h2 := hwf c hc
        omega
    _ = df.cols.length * df.nrows := by
        simp [List.map_const', List.sum_replicate, smul_eq_mul]

/-- Rounding to two decimals keeps a nonnegative value nonnegative. -/
theorem roundTo2_nonneg {x : ℚ} (h : 0 ≤ x) : 0 ≤ roundTo2 x := by
  unfold roundTo2
  have h1 : (0 : ℤ) ≤ round (x * 100) := by
    rw [round_eq]
    exact Int.le_floor.mpr (by push_cast; linarith)
  have h2 : (0 : ℚ) ≤ ((round (x * 100) : ℤ) : ℚ) := by exact_mod_cast h1
  exact div_nonneg h2 (by norm_num)

/-- Rounding to two decimals keeps a value at most 100 at most 100. -/
theorem roundTo2_le_100 {x : ℚ} (h : x ≤ 100) : roundTo2 x ≤ 100 := by
  unfold roundTo2
  have h1 : round (x * 100) ≤ (10000 : ℤ) := by
    rw [round_eq]
    refine Int.floor_le_iff.mpr ?_
    push_cast
    linarith
  have h2 : ((round (x * 100) : ℤ) : ℚ) ≤ 10000 := by exact_mod_cast h1
  linarith

/-- C6: get_basic_analytics reports total_rows as the row count,
total_columns as the column count, one columns_info entry per column in
order, and for every int64/float64 column a record of the six descriptive
statistics sum, mean, min, max, median, std, each equal to 0.0 when the
column holds no non-null value.  The statement holds for every model stdFn
of the library standard-deviation call. -/
theorem get_basic_analytics_shape (stdFn : List ℚ → ℚ) (df : DataFrame) :
    (get_basic_analytics stdFn df).total_rows = df.nrows ∧
    (get_basic_analytics stdFn df).total_columns = df.cols.length ∧
    (get_basic_analytics stdFn df).columns_info.map Prod.fst
      = df.cols.map Column.name ∧
    ∀ c ∈ df.cols,
      (c.name, columnInfo stdFn df.nrows c) ∈
        (get_basic_analytics stdFn df).columns_info ∧
      (c.dtype.isNumeric = true →
        (columnInfo stdFn df.nrows c).num_stats
          = some (numericStats stdFn c.cells) ∧
        (countCells c.cells = 0 →
          numericStats stdFn c.cells = ⟨0, 0, 0, 0, 0, 0⟩)) := by
  refine ⟨rfl, rfl, by simp [get_basic_analytics], ?_⟩
  intro c hc
  refine ⟨?_, ?_⟩
  · simp only [get_basic_analytics]
    exact List.mem_map_of_mem _ hc
  · intro hnum
    refine ⟨by simp [columnInfo, hnum], ?_⟩
    intro hz
    simp [numericStats, hz]

/-- C6 witness: a concrete frame with an all-null float64 column, run
through the shape theorem. -/
theorem get_basic_analytics_shape_witness :
    numericStats (fun _ => 37) [(none : Cell), none] = ⟨0, 0, 0, 0, 0, 0⟩ := by
  have h := (get_basic_analytics_shape (fun _ => 37)
      { nrows := 2,
        cols := [{ name := "v", dtype := .float64,
                   cells := [none, none] }] }).2.2.2
      { name := "v", dtype := .float64, cells := [none, none] }
      (List.mem_singleton.mpr rfl)
  exact (h.2 (by decide)).2 (by decide)

/-- C10: for a well-formed frame with at least one row and one column,
both divisors inside get_basic_analytics are nonzero and every
completeness value lies between 0 and 100. -/
theorem get_basic_analytics_divisions (stdFn : List ℚ → ℚ) (df : DataFrame)
    (hwf : df.WF) (hr : 1 ≤ df.nrows) (hc : 1 ≤ df.cols.length) :
    (df.nrows : ℚ) * (df.cols.length : ℚ) ≠ 0 ∧
    (df.nrows : ℚ) ≠ 0 ∧
    (0 ≤ (get_basic_analytics stdFn df).summary_stats.completeness_percentage ∧
      (get_basic_analytics stdFn df).summary_stats.completeness_percentage
        ≤ 100) ∧
    ∀ c ∈ df.cols,
      0 ≤ (columnInfo stdFn df.nrows c).completeness ∧
      (columnInfo stdFn df.nrows c).completeness ≤ 100 := by
  have hrq : (0 : ℚ) < (df.nrows : ℚ) := by exact_mod_cast hr
  have hcq : (0 : ℚ) < (df.cols.length : ℚ) := by exact_mod_cast hc
  refine ⟨by positivity, by positivity, ?_, ?_⟩
  · have hm := totalMissing_le df hwf
    have hmq : (totalMissing df : ℚ) ≤ (df.nrows : ℚ) * (df.cols.length : ℚ) := by
      have : (totalMissing df : ℚ) ≤ ((df.cols.length * df.nrows : ℕ) : ℚ) := by
        exact_mod_cast hm
      push_cast at this
      linarith
    have hfrac0 : 0 ≤ (totalMissing df : ℚ) /
        ((df.nrows : ℚ) * (df.cols.length : ℚ)) := by positivity
    have hfrac1 : (totalMissing df : ℚ) /
        ((df.nrows : ℚ) * (df.cols.length : ℚ)) ≤ 1 := by
      rw [div_le_one (by positivity)]
      exact hmq
    constructor
    · exact roundTo2_nonneg (by nlinarith)
    · exact roundTo2_le_100 (by nlinarith)
  · intro c hcol
    have hlen := hwf c hcol
    have hcount : countCells c.cells ≤ df.nrows := by
      have := countCells_le_length c.cells
      omega
    have hcountq : (countCells c.cells : ℚ) ≤ (df.nrows : ℚ) := by
      exact_mod_cast hcount
    have hfrac0 : 0 ≤ (countCells c.cells : ℚ) / (df.nrows : ℚ) := by positivity
    have hfrac1 : (countCells c.cells : ℚ) / (df.nrows : ℚ) ≤ 1 := by
      rw [div_le_one hrq]
      exact hcountq
    constructor
    · exact roundTo2_nonneg (by nlinarith)
    · exact roundTo2_le_100 (by nlinarith)

/-- C10 witness: concrete bounds obtained from the divisions theorem. -/
theorem get_basic_analytics_divisions_witness :
    0 ≤ (get_basic_analytics (fun _ => 0)
        { nrows := 2,
          cols := [{ name := "v", dtype := .float64,
                     cells := [some ⟨5, "5", false, true⟩, none] }]
        }).summary_stats.completeness_percentage ∧
    (get_basic_analytics (fun _ => 0)
        { nrows := 2,
          cols := [{ name := "v", dtype := .float64,
                     cells := [some ⟨5, "5", false, true⟩, none] }]
        }).summary_stats.completeness_percentage ≤ 100 := by
  have h := get_basic_analytics_divisions (fun _ => 0)
      { nrows := 2,
        cols := [{ name := "v", dtype := .float64,
                   cells := [some ⟨5, "5", false, true⟩, none] }] }
      (by intro c hcol
          simp only [List.mem_singleton] at hcol
          subst hcol
          rfl)
      (by decide) (by decide)
  exact h.2.2.1

/-- Dropping characters while a predicate holds strictly shortens a list
that contains a character falsifying the predicate. -/
theorem length_takeWhile_lt_of_exists_false (p : Char → Bool) (l : List Char)
    (h : ∃ c ∈ l, p c = false) :
    (l.takeWhile p).length < l.length := by
  induction l with
  | nil => simp at h
  | cons a as ih =>
    rw [List.takeWhile_cons]
    cases hpa : p a with
    | false => simp
    | true =>
      have h2 : ∃ c ∈ as, p c = false := by
        obtain ⟨c, hc, hpc⟩ := h
        rcases List.mem_cons.mp hc with h1 | h1
        · subst h1; rw [hpa] at hpc; exact absurd hpc (by simp)
        · exact ⟨c, h1, hpc⟩
      have h3 := ih h2
      simp only [if_true, List.length_cons]
      omega

/-- Every name accepted by allowed_file has at least four characters: a
dot plus one of the three-or-four letter allowed extensions. -/
theorem allowed_file_length {f : FileName} (h : allowed_file f = true) :
    4 ≤ f.length := by
  unfold allowed_file at h
  rw [Bool.and_eq_true] at h
  obtain ⟨hdot, hext⟩ := h
  have hmem : '.' ∈ f := by simpa using hdot
  have hlt : (f.reverse.takeWhile (fun c => c ≠ '.')).length < f.reverse.length :=
    length_takeWhile_lt_of_exists_false _ _
      ⟨'.', by simpa using hmem, by simp⟩
  rw [List.length_reverse] at hlt
  have hlen3 : 3 ≤ (lastExt f).length := by
    have hall : ∀ e ∈ ALLOWED_EXTENSIONS, 3 ≤ e.length := by decide
    have h3 := hall _ (of_decide_eq_true hext)
    rwa [List.length_map] at h3
  have heq : (lastExt f).length
      = (f.reverse.takeWhile (fun c => c ≠ '.')).length := by
    rw [lastExt, List.length_reverse]
  omega

/-- Appending a short-or-equal-length list transfers the suffix test. -/
theorem endsWithSuffix_append (s a b : FileName) (h : s.length ≤ b.length) :
    endsWithSuffix s (a ++ b) = endsWithSuffix s b := by
  unfold endsWithSuffix
  rw [List.reverse_append, List.take_append_of_le_length (by simpa using h)]

/-- C3: the upload handler rejects, before any reader is called, exactly
the empty names and the names whose lowercased last-dot extension is not
allowed, and otherwise dispatches solely on the extension: lowercase
suffix .pdf to the PDF extractor, else lowercase suffix .csv to the CSV
reader, else the Excel reader.  The sanitizer is assumed to leave the
name unchanged, which makes the stored name the timestamp plus the
original name. -/
theorem upload_file_dispatch (sfn : FileName → FileName)
    (timestamp f : FileName) (hsfn : sfn f = f) :
    (allowed_file f = false → upload_file sfn timestamp f = none) ∧
    (allowed_file f = true →
      (endsWithSuffix PDF_SUFFIX f = true →
        upload_file sfn timestamp f = some Reader.pdfReader) ∧
      (endsWithSuffix PDF_SUFFIX f = false →
        endsWithSuffix CSV_SUFFIX f = true →
        upload_file sfn timestamp f = some Reader.csvReader) ∧
      (endsWithSuffix PDF_SUFFIX f = false →
        endsWithSuffix CSV_SUFFIX f = false →
        upload_file sfn timestamp f = some Reader.excelReader)) := by
  constructor
  · intro hnot
    unfold upload_file
    by_cases hf : f = []
    · simp [hf]
    · simp [hf, hnot]
  · intro hok
    have hlen := allowed_file_length hok
    have hf : ¬ f = [] := by
      intro hf
      rw [hf] at hlen
      simp at hlen
    have hstored : timestamp ++ '_' :: sfn f = (timestamp ++ ['_']) ++ f := by
      rw [hsfn]
      simp
    have hpdf : endsWithSuffix PDF_SUFFIX (timestamp ++ '_' :: sfn f)
        = endsWithSuffix PDF_SUFFIX f := by
      rw [hstored]
      refine endsWithSuffix_append _ _ _ ?_
      have h4 : PDF_SUFFIX.length = 4 := rfl
      omega
    have hcsv : endsWithSuffix CSV_SUFFIX (timestamp ++ '_' :: sfn f)
        = endsWithSuffix CSV_SUFFIX f := by
      rw [hstored]
      refine endsWithSuffix_append _ _ _ ?_
      have h4 : CSV_SUFFIX.length = 4 := rfl
      omega
    refine ⟨?_, ?_, ?_⟩
    · intro h1
      unfold upload_file chooseReader
      simp [hf, hok, hpdf, h1]
    · intro h1 h2
      unfold upload_file chooseReader
      simp [hf, hok, hpdf, hcsv, h1, h2]
    · intro h1 h2
      unfold upload_file chooseReader
      simp [hf, hok, hpdf, hcsv, h1, h2]

/-- C3 witness: a name ending in .pdf is dispatched to the PDF extractor,
with the identity sanitizer and a concrete timestamp. -/
theorem upload_file_dispatch_witness :
    upload_file id (String.toList "20250101_000000")
      (String.toList "data.pdf") = some Reader.pdfReader :=
  ((upload_file_dispatch id (String.toList "20250101_000000")
      (String.toList "data.pdf") rfl).2 (by decide)).1 (by decide)

/-- C4: both wrappers always return a dict of the common shape, for every
outcome of the remote call including a raised exception, and succeed
exactly when the call yields extractable text, which makes them
interchangeable at the result-shape level. -/
theorem analyze_table_data_result_shape (call call' : String → ApiOutcome)
    (table_data : List TableRow) (filename : String) :
    resultShapeOK (yandexAnalyze call table_data filename) ∧
    resultShapeOK (gigachatAnalyze call' table_data filename) ∧
    ((yandexAnalyze call table_data filename).success = true ↔
      ∃ t, call (yandexUserPrompt table_data filename) = .okText t) ∧
    ((gigachatAnalyze call' table_data filename).success = true ↔
      ∃ t, call' (gigachatPrompt table_data filename) = .okText t) := by
  refine ⟨?_, ?_, ?_, ?_⟩
  · unfold yandexAnalyze resultShapeOK
    rcases call (yandexUserPrompt table_data filename) with t | _ | m <;> simp
  · unfold gigachatAnalyze resultShapeOK
    rcases call' (gigachatPrompt table_data filename) with t | _ | m <;> simp
  · unfold yandexAnalyze
    rcases h : call (yandexUserPrompt table_data filename) with t | _ | m <;>
      simp
  · unfold gigachatAnalyze
    rcases h : call' (gigachatPrompt table_data filename) with t | _ | m <;>
      simp

/-- C4 witness: a call that raises is answered by both wrappers with a
failure dict holding an error message. -/
theorem analyze_table_data_result_shape_witness :
    (yandexAnalyze (fun _ => ApiOutcome.exn "boom") [] "t.csv").error.isSome
        = true ∧
    (gigachatAnalyze (fun _ => ApiOutcome.exn "boom") [] "t.csv").error.isSome
        = true := by
  have h := analyze_table_data_result_shape (fun _ => ApiOutcome.exn "boom")
    (fun _ => ApiOutcome.exn "boom") [] "t.csv"
  exact ⟨h.1.2 rfl, h.2.1.2 rfl⟩

/-- Selecting every column position of a full-width row is the identity. -/
theorem selectCols_range (r : List RawCell) :
    selectCols (List.range r.length) r = r := by
  unfold selectCols cellAt
  apply List.ext_getElem
  · simp
  · intro i h1 h2
    simp [List.getElem?_eq_getElem h2]

/-- C9: the extractor raises ValueError on a document without pages, on a
first page without tables, on an empty first table and on a first table
with fewer than two rows; with a header row and at least one data row it
returns a frame, built from the data rows with the fully empty rows
dropped and restricted to the column positions that are not fully empty,
every returned row stemming from a not-fully-empty data row. -/
theorem extract_table_from_pdf_cases (conv : RawCell → RawCell)
    (doc : PdfDocument) :
    (doc.pages = [] →
      extract_table_from_pdf conv doc
        = .error "PDF файл не содержит страниц") ∧
    (∀ p rest, doc.pages = p :: rest → p.tables = [] →
      extract_table_from_pdf conv doc
        = .error "На первой странице PDF не найдено таблиц") ∧
    (∀ p rest ts, doc.pages = p :: rest → p.tables = [] :: ts →
      extract_table_from_pdf conv doc
        = .error "Первая таблица в PDF пуста") ∧
    (∀ p rest h ts, doc.pages = p :: rest → p.tables = [h] :: ts →
      extract_table_from_pdf conv doc
        = .error
            "Таблица должна содержать как минимум заголовки и одну строку данных") ∧
    (∀ p rest h d ds ts, doc.pages = p :: rest →
      p.tables = (h :: d :: ds) :: ts →
      ∃ fr : PdfFrame, extract_table_from_pdf conv doc = .ok fr ∧
        fr.headers
          = selectCols (keptCols h.length (dropEmptyRows (d :: ds))) h ∧
        fr.rows = (dropEmptyRows (d :: ds)).map
          (fun r =>
            (selectCols (keptCols h.length (dropEmptyRows (d :: ds))) r).map
              conv) ∧
        (∀ r ∈ dropEmptyRows (d :: ds), rowAllNull r = false) ∧
        (∀ j ∈ keptCols h.length (dropEmptyRows (d :: ds)),
          colAllNull (dropEmptyRows (d :: ds)) j = false)) := by
  refine ⟨?_, ?_, ?_, ?_, ?_⟩
  · intro h1
    simp [extract_table_from_pdf, h1]
  · intro p rest h1 h2
    simp [extract_table_from_pdf, h1, h2]
  · intro p rest ts h1 h2
    simp [extract_table_from_pdf, h1, h2]
  · intro p rest h ts h1 h2
    simp [extract_table_from_pdf, h1, h2]
  · intro p rest h d ds ts h1 h2
    refine ⟨{ headers := selectCols (keptCols h.length (dropEmptyRows (d :: ds))) h,
              rows := (dropEmptyRows (d :: ds)).map
                (fun r =>
                  (selectCols (keptCols h.length (dropEmptyRows (d :: ds))) r).map
                    conv) },
            ?_, rfl, rfl, ?_, ?_⟩
    · simp [extract_table_from_pdf, h1, h2]
    · intro r hr
      have := List.of_mem_filter hr
      simpa using this
    · intro j hj
      have := List.of_mem_filter hj
      simpa using this

/-- C9 witness: a concrete two-page-free document run through the case
analysis of the extractor. -/
theorem extract_table_from_pdf_cases_witness :
    extract_table_from_pdf id { pages := [] }
      = .error "PDF файл не содержит страниц" :=
  (extract_table_from_pdf_cases id { pages := [] }).1 rfl

/-- C1: on a table whose rows all have the header width, none fully
empty and no column fully empty, the extractor returns the frame whose
column names are exactly the first row and whose data rows are exactly
the remaining rows, each cell passed through the dtype coercion conv. -/
theorem extract_table_from_pdf_first_row_headers (conv : RawCell → RawCell)
    (doc : PdfDocument) (first_page : PdfPage) (rest : List PdfPage)
    (headers d : List RawCell) (ds : List (List RawCell)) (ts : List RawTable)
    (hpages : doc.pages = first_page :: rest)
    (htables : first_page.tables = (headers :: d :: ds) :: ts)
    (hrect : ∀ r ∈ d :: ds, r.length = headers.length)
    (hrows : ∀ r ∈ d :: ds, rowAllNull r = false)
    (hcols : ∀ j < headers.length, colAllNull (d :: ds) j = false) :
    extract_table_from_pdf conv doc
      = .ok { headers := headers,
              rows := (d :: ds).map (fun r => r.map conv) } := by
  have hdrop : dropEmptyRows (d :: ds) = d :: ds :=
    List.filter_eq_self.mpr (fun r hr => by simp [hrows r hr])
  have hkept : keptCols headers.length (d :: ds) = List.range headers.length :=
    List.filter_eq_self.mpr (fun j hj => by
      simp [hcols j (List.mem_range.mp hj)])
  have hsel : ∀ r ∈ d :: ds,
      (selectCols (List.range headers.length) r).map conv = r.map conv := by
    intro r hr
    rw [← hrect r hr, selectCols_range]
  have hrowsEq : (d :: ds).map
      (fun r => (selectCols (List.range headers.length) r).map conv)
      = (d :: ds).map (fun r => r.map conv) :=
    List.map_congr_left hsel
  simp only [extract_table_from_pdf, hpages, htables, hdrop, hkept]
  rw [selectCols_range headers, hrowsEq]

/-- C1 witness: a concrete one-page document with one two-row table; the
first row becomes the headers, the second becomes the single data row. -/
theorem extract_table_from_pdf_first_row_headers_witness :
    extract_table_from_pdf id
        { pages := [{ tables := [[[some "h1", some "h2"],
                                  [some "a", some "b"]]] }] }
      = .ok { headers := [some "h1", some "h2"],
              rows := [[some "a", some "b"]] } := by
  have h := extract_table_from_pdf_first_row_headers id
      { pages := [{ tables :=
          [[[some "h1", some "h2"], [some "a", some "b"]]] }] }
      { tables := [[[some "h1", some "h2"], [some "a", some "b"]]] } []
      [some "h1", some "h2"] [some "a", some "b"] [] []
      rfl rfl (by decide) (by decide) (by decide)
  simpa using h

/-- The bar branch emits at most one chart, always of kind bar, and only
under its guard conditions. -/
theorem barChartOf_spec (df : DataFrame) (dt : List (String × String)) :
    (barChartOf df dt).length ≤ 1 ∧
    ∀ ch ∈ barChartOf df dt, ch.ctype = "bar" ∧
      "make" ∈ columnsOfType dt "text" ∧
      0 < (columnsOfType dt "numeric").length := by
  unfold barChartOf
  split
  · rename_i hcond
    split
    · simp
    · dsimp only
      split
      · refine ⟨by simp, ?_⟩
        intro ch hch
        rw [List.mem_singleton] at hch
        subst hch
        exact ⟨rfl, hcond.1, hcond.2⟩
      · simp
  · simp

/-- The line branch emits at most one chart, always of kind line, and
only under its guard conditions. -/
theorem lineChartOf_spec (df : DataFrame) (dt : List (String × String)) :
    (lineChartOf df dt).length ≤ 1 ∧
    ∀ ch ∈ lineChartOf df dt, ch.ctype = "line" ∧
      "year" ∈ columnsOfType dt "numeric" ∧
      "sellingprice" ∈ columnsOfType dt "numeric" ∧
      ∃ cy cs, getColumn df "year" = some cy ∧
        getColumn df "sellingprice" = some cs ∧
        1 < (groupSumBy cy.cells cs.cells).length := by
  unfold lineChartOf
  split
  · rename_i hcond
    split
    · rename_i cy cs hy hs
      dsimp only
      split
      · rename_i hlen
        refine ⟨by simp, ?_⟩
        intro ch hch
        rw [List.mem_singleton] at hch
        subst hch
        exact ⟨rfl, hcond.1, hcond.2, cy, cs, hy, hs, hlen⟩
      · simp
    · simp
  · simp

/-- C8: create_charts is a total function returning at most two charts; a
bar chart appears only when make is a text column and at least one
numeric column exists, and a line chart only when year and sellingprice
are numeric columns, both resolve in the frame and the per-year grouped
sums have more than one point. -/
theorem create_charts_shape (df : DataFrame) (dt : List (String × String)) :
    (create_charts df dt).length ≤ 2 ∧
    (∀ ch ∈ create_charts df dt, ch.ctype = "bar" →
      "make" ∈ columnsOfType dt "text" ∧
      0 < (columnsOfType dt "numeric").length) ∧
    (∀ ch ∈ create_charts df dt, ch.ctype = "line" →
      "year" ∈ columnsOfType dt "numeric" ∧
      "sellingprice" ∈ columnsOfType dt "numeric" ∧
      ∃ cy cs, getColumn df "year" = some cy ∧
        getColumn df "sellingprice" = some cs ∧
        1 < (groupSumBy cy.cells cs.cells).length) := by
  obtain ⟨hb1, hb2⟩ := barChartOf_spec df dt
  obtain ⟨hl1, hl2⟩ := lineChartOf_spec df dt
  refine ⟨?_, ?_, ?_⟩
  · unfold create_charts
    rw [List.length_append]
    omega
  · intro ch hch hbar
    rcases List.mem_append.mp hch with h | h
    · exact (hb2 ch h).2
    · exact absurd ((hl2 ch h).1.symm.trans hbar) (by decide)
  · intro ch hch hline
    rcases List.mem_append.mp hch with h | h
    · exact absurd ((hb2 ch h).1.symm.trans hline) (by decide)
    · exact (hl2 ch h).2

/-- C8 witness: a concrete frame with a text make column and a numeric
column, for which the produced chart is the single bar chart, run through
the shape theorem. -/
theorem create_charts_shape_witness :
    "make" ∈ columnsOfType [("make", "text"), ("price", "numeric")] "text" ∧
    0 < (columnsOfType [("make", "text"), ("price", "numeric")]
          "numeric").length := by
  have h := (create_charts_shape
      { nrows := 1,
        cols := [{ name := "make", dtype := .object,
                   cells := [some ⟨0, "BMW", false, false⟩] },
                 { name := "price", dtype := .int64,
                   cells := [some ⟨1, "1", false, true⟩] }] }
      [("make", "text"), ("price", "numeric")]).2.1
  exact h { ctype := "bar",
            title := "Топ 10 марок автомобилей по количеству продаж",
            xvals := ["BMW"], yvals := [1] } (by decide) rfl

/-- C7: create_pdf_report always returns a Boolean, True exactly when the
document build succeeds on the assembled story and False exactly when the
build raises, the story assembly itself being total. -/
theorem create_pdf_report_boolean (inlineFmt : String → String)
    (docBuild : List RElement → Except String Unit) (dateStr : String)
    (data : ReportData) :
    (create_pdf_report inlineFmt docBuild dateStr data = true ↔
      docBuild (buildStory inlineFmt dateStr data) = .ok ()) ∧
    (create_pdf_report inlineFmt docBuild dateStr data = false ↔
      ∃ e, docBuild (buildStory inlineFmt dateStr data) = .error e) := by
  unfold create_pdf_report generate_report
  rcases h : docBuild (buildStory inlineFmt dateStr data) with e | u
  · simp [h]
  · cases u
    simp [h]

/-- C7 witness: a failing document build makes create_pdf_report report
False on a concrete empty report. -/
theorem create_pdf_report_boolean_witness :
    create_pdf_report id (fun _ => Except.error "layout") "01.01.2025 00:00"
      { filename := none, total_rows := 0, total_columns := 0,
        table_data := [], columns := [], analytics := none,
        ai_analyses := [] } = false :=
  (create_pdf_report_boolean id (fun _ => Except.error "layout")
      "01.01.2025 00:00"
      { filename := none, total_rows := 0, total_columns := 0,
        table_data := [], columns := [], analytics := none,
        ai_analyses := [] }).2.mpr ⟨"layout", rfl⟩

